import Mathlib

/-
Verification development for the heatsink OpenGL wrapper library.

The C++ sources under include/heatsink and src/heatsink are shallowly
embedded: each embedded definition is translated from one source function
(cited by file and line in its doc comment). Machine integers
(std::size_t, GLuint, GLenum) are modelled as Nat, with an explicit
modulus 2^64 at the points where std::size_t overflow can change the
result. Functions that throw heatsink::exception return Except; assert()
conditions are modelled as a distinct failure constructor where the
distinction matters, and as theorem hypotheses otherwise.
-/

namespace heatsink.gl

/-! OpenGL enumeration constants (numeric values from the GL headers). -/

def GL_NONE : Nat := 0x0000
def GL_TEXTURE : Nat := 0x1702
def GL_STENCIL : Nat := 0x1802
def GL_DEPTH_COMPONENT : Nat := 0x1902
def GL_RED : Nat := 0x1903
def GL_RGB : Nat := 0x1907
def GL_RGBA : Nat := 0x1908

def GL_BYTE : Nat := 0x1400
def GL_UNSIGNED_BYTE : Nat := 0x1401
def GL_SHORT : Nat := 0x1402
def GL_UNSIGNED_SHORT : Nat := 0x1403
def GL_INT : Nat := 0x1404
def GL_UNSIGNED_INT : Nat := 0x1405
def GL_FLOAT : Nat := 0x1406
def GL_DOUBLE : Nat := 0x140A
def GL_HALF_FLOAT : Nat := 0x140B

def GL_UNSIGNED_BYTE_3_3_2 : Nat := 0x8032
def GL_UNSIGNED_SHORT_4_4_4_4 : Nat := 0x8033
def GL_UNSIGNED_SHORT_5_5_5_1 : Nat := 0x8034
def GL_UNSIGNED_INT_8_8_8_8 : Nat := 0x8035
def GL_UNSIGNED_INT_10_10_10_2 : Nat := 0x8036
def GL_UNSIGNED_BYTE_2_3_3_REV : Nat := 0x8362
def GL_UNSIGNED_SHORT_5_6_5 : Nat := 0x8363
def GL_UNSIGNED_SHORT_5_6_5_REV : Nat := 0x8364
def GL_UNSIGNED_SHORT_4_4_4_4_REV : Nat := 0x8365
def GL_UNSIGNED_SHORT_1_5_5_5_REV : Nat := 0x8366
def GL_UNSIGNED_INT_8_8_8_8_REV : Nat := 0x8367
def GL_UNSIGNED_INT_2_10_10_10_REV : Nat := 0x8368
def GL_UNSIGNED_INT_24_8 : Nat := 0x84FA
def GL_UNSIGNED_INT_10F_11F_11F_REV : Nat := 0x8C3B
def GL_UNSIGNED_INT_5_9_9_9_REV : Nat := 0x8C3E
def GL_FLOAT_32_UNSIGNED_INT_24_8_REV : Nat := 0x8DAD

def GL_BOOL : Nat := 0x8B56
def GL_BOOL_VEC2 : Nat := 0x8B57
def GL_BOOL_VEC3 : Nat := 0x8B58
def GL_BOOL_VEC4 : Nat := 0x8B59
def GL_INT_VEC2 : Nat := 0x8B53
def GL_INT_VEC3 : Nat := 0x8B54
def GL_INT_VEC4 : Nat := 0x8B55
def GL_UNSIGNED_INT_VEC2 : Nat := 0x8DC6
def GL_UNSIGNED_INT_VEC3 : Nat := 0x8DC7
def GL_UNSIGNED_INT_VEC4 : Nat := 0x8DC8
def GL_FLOAT_VEC2 : Nat := 0x8B50
def GL_FLOAT_VEC3 : Nat := 0x8B51
def GL_FLOAT_VEC4 : Nat := 0x8B52
def GL_DOUBLE_VEC2 : Nat := 0x8FFC
def GL_DOUBLE_VEC3 : Nat := 0x8FFD
def GL_DOUBLE_VEC4 : Nat := 0x8FFE
def GL_FLOAT_MAT2 : Nat := 0x8B5A
def GL_FLOAT_MAT3 : Nat := 0x8B5B
def GL_FLOAT_MAT4 : Nat := 0x8B5C
def GL_FLOAT_MAT2x3 : Nat := 0x8B65
def GL_FLOAT_MAT2x4 : Nat := 0x8B66
def GL_FLOAT_MAT3x2 : Nat := 0x8B67
def GL_FLOAT_MAT3x4 : Nat := 0x8B68
def GL_FLOAT_MAT4x2 : Nat := 0x8B69
def GL_FLOAT_MAT4x3 : Nat := 0x8B6A
def GL_DOUBLE_MAT2 : Nat := 0x8F46
def GL_DOUBLE_MAT3 : Nat := 0x8F47
def GL_DOUBLE_MAT4 : Nat := 0x8F48
def GL_DOUBLE_MAT2x3 : Nat := 0x8F49
def GL_DOUBLE_MAT2x4 : Nat := 0x8F4A
def GL_DOUBLE_MAT3x2 : Nat := 0x8F4B
def GL_DOUBLE_MAT3x4 : Nat := 0x8F4C
def GL_DOUBLE_MAT4x2 : Nat := 0x8F4D
def GL_DOUBLE_MAT4x3 : Nat := 0x8F4E

def GL_SAMPLER : Nat := 0x82E6
def GL_SAMPLER_1D : Nat := 0x8B5D
def GL_SAMPLER_2D : Nat := 0x8B5E
def GL_SAMPLER_3D : Nat := 0x8B5F
def GL_SAMPLER_CUBE : Nat := 0x8B60
def GL_SAMPLER_1D_SHADOW : Nat := 0x8B61
def GL_SAMPLER_2D_SHADOW : Nat := 0x8B62
def GL_SAMPLER_2D_RECT : Nat := 0x8B63
def GL_SAMPLER_2D_RECT_SHADOW : Nat := 0x8B64
def GL_SAMPLER_1D_ARRAY : Nat := 0x8DC0
def GL_SAMPLER_2D_ARRAY : Nat := 0x8DC1
def GL_SAMPLER_BUFFER : Nat := 0x8DC2
def GL_SAMPLER_1D_ARRAY_SHADOW : Nat := 0x8DC3
def GL_SAMPLER_2D_ARRAY_SHADOW : Nat := 0x8DC4
def GL_SAMPLER_CUBE_SHADOW : Nat := 0x8DC5
def GL_SAMPLER_CUBE_MAP_ARRAY : Nat := 0x900C
def GL_SAMPLER_CUBE_MAP_ARRAY_SHADOW : Nat := 0x900D
def GL_SAMPLER_2D_MULTISAMPLE : Nat := 0x9108
def GL_SAMPLER_2D_MULTISAMPLE_ARRAY : Nat := 0x910B
def GL_INT_SAMPLER_1D : Nat := 0x8DC9
def GL_INT_SAMPLER_2D : Nat := 0x8DCA
def GL_INT_SAMPLER_3D : Nat := 0x8DCB
def GL_INT_SAMPLER_CUBE : Nat := 0x8DCC
def GL_INT_SAMPLER_2D_RECT : Nat := 0x8DCD
def GL_INT_SAMPLER_1D_ARRAY : Nat := 0x8DCE
def GL_INT_SAMPLER_2D_ARRAY : Nat := 0x8DCF
def GL_INT_SAMPLER_BUFFER : Nat := 0x8DD0
def GL_INT_SAMPLER_CUBE_MAP_ARRAY : Nat := 0x900E
def GL_INT_SAMPLER_2D_MULTISAMPLE : Nat := 0x9109
def GL_INT_SAMPLER_2D_MULTISAMPLE_ARRAY : Nat := 0x910C
def GL_UNSIGNED_INT_SAMPLER_1D : Nat := 0x8DD1
def GL_UNSIGNED_INT_SAMPLER_2D : Nat := 0x8DD2
def GL_UNSIGNED_INT_SAMPLER_3D : Nat := 0x8DD3
def GL_UNSIGNED_INT_SAMPLER_CUBE : Nat := 0x8DD4
def GL_UNSIGNED_INT_SAMPLER_2D_RECT : Nat := 0x8DD5
def GL_UNSIGNED_INT_SAMPLER_1D_ARRAY : Nat := 0x8DD6
def GL_UNSIGNED_INT_SAMPLER_2D_ARRAY : Nat := 0x8DD7
def GL_UNSIGNED_INT_SAMPLER_BUFFER : Nat := 0x8DD8
def GL_UNSIGNED_INT_SAMPLER_CUBE_MAP_ARRAY : Nat := 0x900F
def GL_UNSIGNED_INT_SAMPLER_2D_MULTISAMPLE : Nat := 0x910A
def GL_UNSIGNED_INT_SAMPLER_2D_MULTISAMPLE_ARRAY : Nat := 0x910D

def GL_BUFFER : Nat := 0x82E0
def GL_SHADER : Nat := 0x82E1
def GL_PROGRAM : Nat := 0x82E2
def GL_QUERY : Nat := 0x82E3
def GL_PROGRAM_PIPELINE : Nat := 0x82E4
def GL_FRAMEBUFFER : Nat := 0x8D40
def GL_RENDERBUFFER : Nat := 0x8D41
def GL_TRANSFORM_FEEDBACK : Nat := 0x8E22
def GL_VERTEX_ARRAY : Nat := 0x8074

def GL_ARRAY_BUFFER : Nat := 0x8892
def GL_ELEMENT_ARRAY_BUFFER : Nat := 0x8893

def GL_TEXTURE_1D : Nat := 0x0DE0
def GL_TEXTURE_2D : Nat := 0x0DE1
def GL_TEXTURE_3D : Nat := 0x806F
def GL_TEXTURE_RECTANGLE : Nat := 0x84F5
def GL_TEXTURE_CUBE_MAP : Nat := 0x8513
def GL_TEXTURE_CUBE_MAP_POSITIVE_X : Nat := 0x8515
def GL_TEXTURE_1D_ARRAY : Nat := 0x8C18
def GL_TEXTURE_2D_ARRAY : Nat := 0x8C1A
def GL_TEXTURE_BUFFER : Nat := 0x8C2A
def GL_TEXTURE_CUBE_MAP_ARRAY : Nat := 0x9009
def GL_TEXTURE_2D_MULTISAMPLE : Nat := 0x9100
def GL_TEXTURE_2D_MULTISAMPLE_ARRAY : Nat := 0x9102

def GL_UNIFORM_TYPE : Nat := 0x8A37
def GL_UNIFORM_SIZE : Nat := 0x8A38
def GL_UNIFORM_NAME_LENGTH : Nat := 0x8A39
def GL_UNIFORM_BLOCK_INDEX : Nat := 0x8A3A

/-- The modulus of C++ std::size_t arithmetic on the 64-bit targets the
library builds for: unsigned overflow wraps modulo 2 to the 64. -/
def size_t_mod : Nat := 2 ^ 64

/-- Failures are split the way the source splits them: `reported` stands
for a thrown heatsink::exception (error/exception.hpp), a recoverable
error carrying a description; `contract` stands for a failed `assert`
(a fatal contract-violation check, error taxonomy tier 1). -/
inductive gl_failure where
  | reported (msg : String)
  | contract (msg : String)
deriving DecidableEq, Repr

/-! Object lifetime core: include/heatsink/gl/object.hpp and the name
traits of include/heatsink/traits/name.hpp, src/heatsink/traits_name.cpp. -/

/-- State of an `object<V>`: the OpenGL name (object.hpp line 101) and
the bind-target enumeration held by `object_target_mixin` (object.hpp
line 127). Kinds without a target have an empty mixin; the field is kept
for all kinds and is simply unused there, which preserves the behavior of
every member that touches it. -/
structure object where
  m_name : Nat
  m_target : Nat
deriving DecidableEq, Repr

/-- Trait `name_traits<V>::is_default_constructible` from
traits/name.hpp: true exactly for the specializations that declare it
true (GL_FRAMEBUFFER line 85, GL_TEXTURE line 160, GL_TRANSFORM_FEEDBACK
line 175); every other specialization declares false. -/
def name_traits.is_default_constructible (V : Nat) : Bool :=
  V = GL_FRAMEBUFFER ∨ V = GL_TEXTURE ∨ V = GL_TRANSFORM_FEEDBACK

/-- Every `name_traits<V>::create()` in src/heatsink/traits_name.cpp has
the same shape: call the glGen function, throw a (reported) exception if
the driver returned name 0, and return the name otherwise. The value the
driver writes is the parameter `raw`; the per-kind message text is
abbreviated to one message. -/
def name_traits.create (raw : Nat) : Except String Nat :=
  if raw = 0 then .error "could not allocate object." else .ok raw

/-- Constructor `object<V>::object(GLenum mode)` (object.hpp lines
136-142): default-construct the mixin, set `m_name` from
`name::create()` (propagating its exception), then set the target. The
targetless overload (lines 132-134) is this with the mixin left at its
default. -/
def object.construct (mode raw : Nat) : Except String object :=
  match name_traits.create raw with
  | .error e => .error e
  | .ok n => .ok { m_name := n, m_target := mode }

/-- Method `object<V>::reset()` (object.hpp lines 231-236): zero the
name and reset the target to GL_NONE. -/
def object.reset (_s : object) : object :=
  { m_name := 0, m_target := GL_NONE }

/-- Move constructor `object<V>::object(object&&)` (object.hpp lines
144-148): the new object takes the source's mixin state and name, then
the source is `reset()`. The pair is (moved-to, moved-from). -/
def object.move_construct (other : object) : object × object :=
  ({ m_name := other.m_name, m_target := other.m_target }, object.reset other)

/-- Destructor `object<V>::~object()` (object.hpp lines 150-154): call
`name::destroy(m_name)` only when `m_name` is nonzero. The result is the
list of names passed to the kind's destroy primitive. -/
def object.destroy_calls (s : object) : List Nat :=
  if s.m_name ≠ 0 then [s.m_name] else []

/-- Method `object<V>::is_valid()` (object.hpp lines 200-204). -/
def object.is_valid (V : Nat) (s : object) : Bool :=
  let is_default := name_traits.is_default_constructible V && s.m_name = 0
  s.m_name ≠ 0 || is_default

/-- Destructor `buffer::basic_view<Const>::~basic_view()` (buffer.hpp
lines 505-510): run `this->reset()`, after which the base
`object<GL_BUFFER>::~object()` destructor runs on the resulting state.
The value is the list of destroy-primitive calls the whole destruction
sequence makes. -/
def buffer.view_destroy_calls (s : object) : List Nat :=
  object.destroy_calls (object.reset s)

/-- Destructor `texture::basic_view<Const>::~basic_view()` (texture.hpp
lines 542-545): identical shape to the buffer view destructor; `reset()`
runs before the base `object<GL_TEXTURE>` destructor acts. -/
def texture.view_destroy_calls (s : object) : List Nat :=
  object.destroy_calls (object.reset s)

/-! Buffer subsystem: include/heatsink/gl/buffer.hpp and
src/heatsink/gl_buffer.cpp. -/

/-- State of a `buffer` (buffer.hpp lines 193-199) together with its
`object<GL_BUFFER>` base. -/
structure buffer where
  obj : object
  m_immutable : Bool
  m_base : Nat
  m_size : Nat
deriving DecidableEq, Repr

/-- A buffer is an `object<GL_BUFFER>`; GL_BUFFER is not default
constructible (name.hpp line 70), so validity is name nonzero. -/
def buffer.is_valid (b : buffer) : Bool :=
  object.is_valid GL_BUFFER b.obj

/-- Accessor `buffer::get_size()` (gl_buffer.cpp lines 79-82). -/
def buffer.get_size (b : buffer) : Nat :=
  b.m_size

/-- Accessor `buffer::get_base()` (gl_buffer.cpp lines 84-86). -/
def buffer.get_base (b : buffer) : Nat :=
  b.m_base

/-- Accessor `buffer::basic_view<Const>::get_offset()` (buffer.hpp lines
512-516): returns `buffer::get_base()`. -/
def buffer.get_offset (b : buffer) : Nat :=
  b.get_base

/-- View constructor `buffer::buffer(const buffer&, std::size_t offset,
std::size_t size)` (gl_buffer.cpp lines 19-34): copy the object state
and immutability, assert validity, throw a reported exception when
`offset + size > b.m_size` (std::size_t arithmetic, so the sum wraps
modulo 2^64), and otherwise set `m_base = b.m_base + offset` (also
std::size_t) and `m_size = size`. `buffer::make_view` (lines 64-67)
asserts validity and delegates here through `view`. -/
def buffer.make_view (b : buffer) (offset size : Nat) : Except gl_failure buffer :=
  if b.is_valid then
    if (offset + size) % size_t_mod > b.m_size then
      .error (.reported "buffer view range out of bounds.")
    else
      .ok { obj := b.obj, m_immutable := b.m_immutable,
            m_base := (b.m_base + offset) % size_t_mod, m_size := size }
  else .error (.contract "assert is_valid")

/-- Factory `buffer::immutable(GLenum, std::size_t, GLbitfield)`
(gl_buffer.cpp lines 4-9): when `size == 0`, throw the reported
exception "cannot create immutable buffer with no data."; otherwise run
the private storage constructor (gl_buffer.cpp lines 36-40), which
creates the object (`raw` is the driver-returned name) and records the
immutable flag, zero base, and the size. -/
def buffer.immutable (target size raw : Nat) : Except gl_failure buffer :=
  if size = 0 then
    .error (.reported "cannot create immutable buffer with no data.")
  else
    match name_traits.create raw with
    | .error e => .error (.reported e)
    | .ok n =>
        .ok { obj := { m_name := n, m_target := target },
              m_immutable := true, m_base := 0, m_size := size }

/-- Factory `buffer::immutable(GLenum, Iterator, Iterator, GLbitfield)`
(buffer.hpp lines 413-422): compute `size = distance * sizeof(T)`
(std::size_t), check `assert(size > 0)` - a contract violation, not a
reported error - and call the private storage constructor directly,
bypassing the zero-size exception of the other overload. -/
def buffer.immutable_range (target count sizeof_T raw : Nat) : Except gl_failure buffer :=
  let size := (count * sizeof_T) % size_t_mod
  if size = 0 then
    .error (.contract "assert size > 0")
  else
    match name_traits.create raw with
    | .error e => .error (.reported e)
    | .ok n =>
        .ok { obj := { m_name := n, m_target := target },
              m_immutable := true, m_base := 0, m_size := size }

/-! Memory traits: include/heatsink/traits/memory.hpp. -/

/-- Function `gl::size_of(GLenum)` (memory.hpp lines 63-95): byte size of
an OpenGL data type; `sizeof` of each corresponding C type on the 64-bit
targets the library builds for. -/
def size_of (e : Nat) : Nat :=
  if e = GL_BOOL then 1
  else if e = GL_BYTE then 1
  else if e = GL_SHORT then 2
  else if e = GL_INT then 4
  else if e = GL_UNSIGNED_BYTE then 1
  else if e = GL_UNSIGNED_SHORT then 2
  else if e = GL_UNSIGNED_INT then 4
  else if e = GL_FLOAT then 4
  else if e = GL_DOUBLE then 8
  else if e = GL_UNSIGNED_BYTE_3_3_2 then 1
  else if e = GL_UNSIGNED_BYTE_2_3_3_REV then 1
  else if e = GL_UNSIGNED_SHORT_5_6_5 then 2
  else if e = GL_UNSIGNED_SHORT_5_6_5_REV then 2
  else if e = GL_UNSIGNED_SHORT_4_4_4_4 then 2
  else if e = GL_UNSIGNED_SHORT_4_4_4_4_REV then 2
  else if e = GL_UNSIGNED_SHORT_5_5_5_1 then 2
  else if e = GL_UNSIGNED_SHORT_1_5_5_5_REV then 2
  else if e = GL_UNSIGNED_INT_24_8 then 4
  else if e = GL_UNSIGNED_INT_10F_11F_11F_REV then 4
  else if e = GL_UNSIGNED_INT_8_8_8_8 then 4
  else if e = GL_UNSIGNED_INT_8_8_8_8_REV then 4
  else if e = GL_UNSIGNED_INT_10_10_10_2 then 4
  else if e = GL_UNSIGNED_INT_2_10_10_10_REV then 4
  else if e = GL_UNSIGNED_INT_5_9_9_9_REV then 4
  else if e = GL_FLOAT_32_UNSIGNED_INT_24_8_REV then 4 + 4
  else 0

/-- Function `gl::is_packed(GLenum)` (memory.hpp lines 97-119): whether
the data type packs several channels into one word. -/
def is_packed (e : Nat) : Bool :=
  e = GL_UNSIGNED_BYTE_3_3_2 ∨ e = GL_UNSIGNED_BYTE_2_3_3_REV ∨
  e = GL_UNSIGNED_SHORT_5_6_5 ∨ e = GL_UNSIGNED_SHORT_5_6_5_REV ∨
  e = GL_UNSIGNED_SHORT_4_4_4_4 ∨ e = GL_UNSIGNED_SHORT_4_4_4_4_REV ∨
  e = GL_UNSIGNED_SHORT_5_5_5_1 ∨ e = GL_UNSIGNED_SHORT_1_5_5_5_REV ∨
  e = GL_UNSIGNED_INT_24_8 ∨ e = GL_UNSIGNED_INT_10F_11F_11F_REV ∨
  e = GL_UNSIGNED_INT_8_8_8_8 ∨ e = GL_UNSIGNED_INT_8_8_8_8_REV ∨
  e = GL_UNSIGNED_INT_10_10_10_2 ∨ e = GL_UNSIGNED_INT_2_10_10_10_REV ∨
  e = GL_UNSIGNED_INT_5_9_9_9_REV ∨ e = GL_FLOAT_32_UNSIGNED_INT_24_8_REV

/-! Enum traits: include/heatsink/traits/enum.hpp. -/

/-- Function `extent(GLenum, std::size_t n)` (enum.hpp lines 137-192):
the array extent of a vector/matrix GL type at dimension n; scalars (and
any unlisted enum) have extent 0 in every dimension. -/
def enum_extent (e n : Nat) : Nat :=
  if e = GL_BOOL_VEC2 ∨ e = GL_INT_VEC2 ∨ e = GL_UNSIGNED_INT_VEC2 ∨
     e = GL_FLOAT_VEC2 ∨ e = GL_DOUBLE_VEC2 then
    (if n = 0 then 2 else 0)
  else if e = GL_BOOL_VEC3 ∨ e = GL_INT_VEC3 ∨ e = GL_UNSIGNED_INT_VEC3 ∨
     e = GL_FLOAT_VEC3 ∨ e = GL_DOUBLE_VEC3 then
    (if n = 0 then 3 else 0)
  else if e = GL_BOOL_VEC4 ∨ e = GL_INT_VEC4 ∨ e = GL_UNSIGNED_INT_VEC4 ∨
     e = GL_FLOAT_VEC4 ∨ e = GL_DOUBLE_VEC4 then
    (if n = 0 then 4 else 0)
  else if e = GL_FLOAT_MAT2 ∨ e = GL_DOUBLE_MAT2 then
    (if n < 2 then 2 else 0)
  else if e = GL_FLOAT_MAT2x3 ∨ e = GL_DOUBLE_MAT2x3 then
    (if n = 1 then 2 else if n = 0 then 3 else 0)
  else if e = GL_FLOAT_MAT2x4 ∨ e = GL_DOUBLE_MAT2x4 then
    (if n = 1 then 2 else if n = 0 then 4 else 0)
  else if e = GL_FLOAT_MAT3x2 ∨ e = GL_DOUBLE_MAT3x2 then
    (if n = 1 then 3 else if n = 0 then 2 else 0)
  else if e = GL_FLOAT_MAT3 ∨ e = GL_DOUBLE_MAT3 then
    (if n < 2 then 3 else 0)
  else if e = GL_FLOAT_MAT3x4 ∨ e = GL_DOUBLE_MAT3x4 then
    (if n = 1 then 3 else if n = 0 then 4 else 0)
  else if e = GL_FLOAT_MAT4x2 ∨ e = GL_DOUBLE_MAT4x2 then
    (if n = 1 then 4 else if n = 0 then 2 else 0)
  else if e = GL_FLOAT_MAT4x3 ∨ e = GL_DOUBLE_MAT4x3 then
    (if n = 1 then 4 else if n = 0 then 3 else 0)
  else if e = GL_FLOAT_MAT4 ∨ e = GL_DOUBLE_MAT4 then
    (if n < 2 then 4 else 0)
  else 0

/-- Function `remove_all_extents(GLenum)` (enum.hpp lines 194-241): the
base scalar type of a vector/matrix GL type; unlisted enums are returned
unchanged. -/
def remove_all_extents (e : Nat) : Nat :=
  if e = GL_BOOL_VEC2 ∨ e = GL_BOOL_VEC3 ∨ e = GL_BOOL_VEC4 then GL_BOOL
  else if e = GL_INT_VEC2 ∨ e = GL_INT_VEC3 ∨ e = GL_INT_VEC4 then GL_INT
  else if e = GL_UNSIGNED_INT_VEC2 ∨ e = GL_UNSIGNED_INT_VEC3 ∨
     e = GL_UNSIGNED_INT_VEC4 then GL_UNSIGNED_INT
  else if e = GL_FLOAT_VEC2 ∨ e = GL_FLOAT_VEC3 ∨ e = GL_FLOAT_VEC4 ∨
     e = GL_FLOAT_MAT2 ∨ e = GL_FLOAT_MAT2x3 ∨ e = GL_FLOAT_MAT2x4 ∨
     e = GL_FLOAT_MAT3x2 ∨ e = GL_FLOAT_MAT3 ∨ e = GL_FLOAT_MAT3x4 ∨
     e = GL_FLOAT_MAT4x2 ∨ e = GL_FLOAT_MAT4x3 ∨ e = GL_FLOAT_MAT4 then GL_FLOAT
  else if e = GL_DOUBLE_VEC2 ∨ e = GL_DOUBLE_VEC3 ∨ e = GL_DOUBLE_VEC4 ∨
     e = GL_DOUBLE_MAT2 ∨ e = GL_DOUBLE_MAT2x3 ∨ e = GL_DOUBLE_MAT2x4 ∨
     e = GL_DOUBLE_MAT3x2 ∨ e = GL_DOUBLE_MAT3 ∨ e = GL_DOUBLE_MAT3x4 ∨
     e = GL_DOUBLE_MAT4x2 ∨ e = GL_DOUBLE_MAT4x3 ∨ e = GL_DOUBLE_MAT4 then GL_DOUBLE
  else e

/-! Tensor traits: include/heatsink/traits/tensor.hpp. A host tensor type
is represented by its `tensor_decay` normal form: the GL enum of its
arithmetic element type (`make_enum` of `remove_all_extents_t`, GL_NONE
when the element type has no GL analogue) and the list of array extents,
outermost dimension first, so `rank = dims.length` and
`std::extent_v<value_type, k> = dims.get k`. -/

structure tensor_type where
  scalar : Nat
  dims : List Nat
deriving DecidableEq, Repr

/-! Vertex format: include/heatsink/gl/vertex_format.hpp and
src/heatsink/gl_vertex_format.cpp. -/

/-- Type `vertex_format::packing` (vertex_format.hpp lines 38-43). -/
structure packing where
  stride : Nat
  offset : Nat
deriving DecidableEq, Repr

/-- State of a `vertex_format` (vertex_format.hpp lines 82-89); the
extents pair is (component count, attribute index count), mirroring
`extents = glm::uvec2`. -/
structure vertex_format where
  m_datatype : Nat
  m_extents : Nat × Nat
  m_packing : packing
deriving DecidableEq, Repr

/-- Constructor `vertex_format::vertex_format(GLenum datatype, extents,
packing)` (gl_vertex_format.cpp lines 13-40): reject zero extents and
more than 4 components (thrown exceptions); compute the format size,
default the stride to it when zero, reject a stride smaller than the
format size; finally, for GL_DOUBLE data double the index extent because
only two double components fit in one attribute slot. The internal
`assert(format_size > 0)` is a sanity check on the datatype and is noted
here as a comment only. -/
def vertex_format.construct (datatype : Nat) (es : Nat × Nat) (pack : packing) :
    Except String vertex_format :=
  if es.1 = 0 ∨ es.2 = 0 then .error "format extents cannot be zero."
  else if es.1 > 4 then .error "format cannot specify more than 4 components."
  else
    let format_size := size_of datatype * es.1 * es.2
    -- assert(format_size > 0)
    let stride := if pack.stride = 0 then format_size else pack.stride
    if format_size > stride then .error "invalid stride specified for format."
    else
      let es := if datatype = GL_DOUBLE then (es.1, es.2 * 2) else es
      .ok { m_datatype := datatype, m_extents := es,
            m_packing := { stride := stride, offset := pack.offset } }

/-- Constructor `vertex_format::vertex_format(GLenum e)`
(gl_vertex_format.cpp lines 10-11): delegate to the validating
constructor with the decomposed scalar type and extents of the GL
vector/matrix enum, and a default (zero) packing. -/
def vertex_format.construct_enum (e : Nat) : Except String vertex_format :=
  vertex_format.construct (remove_all_extents e) (enum_extent e 0, enum_extent e 1)
    { stride := 0, offset := 0 }

/-- Constructor `vertex_format::vertex_format(T Vertex::*member, bool
force_array)` (vertex_format.hpp lines 93-137): set the packing from the
vertex layout, take the datatype from the decayed member type, and set
the extents by the rank of the decayed type. Rank 2 uses (inner extent,
outer extent) with inner at most 4; rank 1 is coerced to a vector only
when the extent is at most 4 and force_array is false; rank 0 is (1,1).
The `static_assert`s (rank at most 2, a GL datatype exists, components
at most 4) are compile-time failures, modelled as `none`. Note this
constructor assigns `m_extents` directly: it does not run the validating
constructor above, so no GL_DOUBLE index doubling happens on this path. -/
def vertex_format.from_member (t : tensor_type) (stride offset : Nat)
    (force_array : Bool) : Option vertex_format :=
  if t.scalar = GL_NONE then none
  else
    match t.dims with
    | [e0, e1] =>
        if e1 ≤ 4 then
          some { m_datatype := t.scalar, m_extents := (e1, e0),
                 m_packing := { stride := stride, offset := offset } }
        else none
    | [e0] =>
        some { m_datatype := t.scalar,
               m_extents := if e0 > 4 || force_array then (1, e0) else (e0, 1),
               m_packing := { stride := stride, offset := offset } }
    | [] =>
        some { m_datatype := t.scalar, m_extents := (1, 1),
               m_packing := { stride := stride, offset := offset } }
    | _ => none

/-! Vertex attribute: include/heatsink/gl/attribute.hpp and
src/heatsink/gl_attribute.cpp. The class name `attribute` is a Lean
keyword, so the embedding is named `gl_attribute`. -/

/-- State of an `attribute` (attribute.hpp lines 82-91), restricted to a
valid instance: `m_location` is the nonnegative location. -/
structure gl_attribute where
  m_location : Nat
  m_datatype : Nat
  m_size : Nat
deriving DecidableEq, Repr

/-- Method `attribute::is_annotated()` (gl_attribute.cpp lines 61-64). -/
def gl_attribute.is_annotated (a : gl_attribute) : Bool :=
  a.m_datatype ≠ GL_NONE

/-- Method `attribute::get()` (gl_attribute.cpp lines 66-69). -/
def gl_attribute.get (a : gl_attribute) : Nat :=
  a.m_location

/-- Method `attribute::get_size()` (gl_attribute.cpp lines 81-84). -/
def gl_attribute.get_size (a : gl_attribute) : Nat :=
  a.m_size

/-! Vertex array: src/heatsink/gl_vertex_array.cpp. -/

/-- Per-iteration component count of the private
`vertex_array::set_attribute` loop (gl_vertex_array.cpp lines 79-88):
`cs` starts as the component extent; for GL_DOUBLE data a 3-component
format uploads 2 then 1 components, and a 4-component format uploads 2
per slot. -/
def slot_components (ty e0 i : Nat) : Nat :=
  if ty = GL_DOUBLE then
    if e0 = 3 then (if i % 2 ≠ 0 then 1 else 2)
    else if e0 = 4 then 2
    else e0
  else e0

/-- The loop of the private `vertex_array::set_attribute`
(gl_vertex_array.cpp lines 78-108), recorded as the list of
(attribute index, component count, byte offset) triples passed to the
glVertexAttrib*Pointer calls; after each iteration the offset advances
by `size_of(type) * cs`. `i` is the loop counter and `n` the remaining
iterations out of `extents[1]`. -/
def set_attribute_loop (ty e0 loc : Nat) : Nat → Nat → Nat → List (Nat × Nat × Nat)
  | _, _, 0 => []
  | i, off, Nat.succ n =>
      let cs := slot_components ty e0 i
      (loc + i, cs, off) :: set_attribute_loop ty e0 loc (i + 1) (off + size_of ty * cs) n

/-- The private overload `vertex_array::set_attribute(const attribute&,
vertex_format, buffer::const_view, conversion*)` (gl_vertex_array.cpp
lines 59-109): the base offset is the view offset plus the packing
offset; an annotated attribute whose introspected size differs from the
format index extent is a reported error; otherwise the loop runs
`extents[1]` times starting at index 0. The choice among the
glVertexAttrib{,I,L}Pointer entry points does not change the recorded
(index, components, offset) triples, so the conversion parameter is not
part of the model. -/
def set_attribute_calls (a : gl_attribute) (f : vertex_format) (view_offset : Nat) :
    Except String (List (Nat × Nat × Nat)) :=
  let offset := view_offset + f.m_packing.offset
  if a.is_annotated && a.get_size ≠ f.m_extents.2 then
    .error "attribute array size mismatch."
  else
    .ok (set_attribute_loop f.m_datatype f.m_extents.1 a.get 0 offset f.m_extents.2)

/-! Format traits: include/heatsink/traits/format.hpp. The sized-format
constants appear here with their GL header values. -/

def GL_R8 : Nat := 0x8229
def GL_R16 : Nat := 0x822A
def GL_RG8 : Nat := 0x822B
def GL_RG16 : Nat := 0x822C
def GL_R16F : Nat := 0x822D
def GL_R32F : Nat := 0x822E
def GL_RG16F : Nat := 0x822F
def GL_RG32F : Nat := 0x8230
def GL_R8I : Nat := 0x8231
def GL_R8UI : Nat := 0x8232
def GL_R16I : Nat := 0x8233
def GL_R16UI : Nat := 0x8234
def GL_R32I : Nat := 0x8235
def GL_R32UI : Nat := 0x8236
def GL_RG8I : Nat := 0x8237
def GL_RG8UI : Nat := 0x8238
def GL_RG16I : Nat := 0x8239
def GL_RG16UI : Nat := 0x823A
def GL_RG32I : Nat := 0x823B
def GL_RG32UI : Nat := 0x823C
def GL_RG : Nat := 0x8227
def GL_RG_INTEGER : Nat := 0x8228
def GL_R8_SNORM : Nat := 0x8F94
def GL_RG8_SNORM : Nat := 0x8F95
def GL_RGB8_SNORM : Nat := 0x8F96
def GL_RGBA8_SNORM : Nat := 0x8F97
def GL_R16_SNORM : Nat := 0x8F98
def GL_RG16_SNORM : Nat := 0x8F99
def GL_RGB16_SNORM : Nat := 0x8F9A
def GL_RGBA16_SNORM : Nat := 0x8F9B
def GL_RGB4 : Nat := 0x804F
def GL_RGB5 : Nat := 0x8050
def GL_RGB8 : Nat := 0x8051
def GL_RGB10 : Nat := 0x8052
def GL_RGB12 : Nat := 0x8053
def GL_RGB16 : Nat := 0x8054
def GL_RGBA2 : Nat := 0x8055
def GL_RGBA4 : Nat := 0x8056
def GL_RGB5_A1 : Nat := 0x8057
def GL_RGBA8 : Nat := 0x8058
def GL_RGB10_A2 : Nat := 0x8059
def GL_RGBA12 : Nat := 0x805A
def GL_RGBA16 : Nat := 0x805B
def GL_RGB16F : Nat := 0x881B
def GL_RGB32F : Nat := 0x8815
def GL_RGBA16F : Nat := 0x881A
def GL_RGBA32F : Nat := 0x8814
def GL_RGB8I : Nat := 0x8D8F
def GL_RGB8UI : Nat := 0x8D7D
def GL_RGB16I : Nat := 0x8D89
def GL_RGB16UI : Nat := 0x8D77
def GL_RGB32I : Nat := 0x8D83
def GL_RGB32UI : Nat := 0x8D71
def GL_RGBA8I : Nat := 0x8D8E
def GL_RGBA8UI : Nat := 0x8D7C
def GL_RGBA16I : Nat := 0x8D88
def GL_RGBA16UI : Nat := 0x8D76
def GL_RGBA32I : Nat := 0x8D82
def GL_RGBA32UI : Nat := 0x8D70
def GL_RED_INTEGER : Nat := 0x8D94
def GL_RGB_INTEGER : Nat := 0x8D98
def GL_RGBA_INTEGER : Nat := 0x8D99
def GL_BGR : Nat := 0x80E0
def GL_BGRA : Nat := 0x80E1
def GL_BGR_INTEGER : Nat := 0x8D9A
def GL_BGRA_INTEGER : Nat := 0x8D9B
def GL_DEPTH_COMPONENT16 : Nat := 0x81A5
def GL_DEPTH_COMPONENT24 : Nat := 0x81A6
def GL_DEPTH_COMPONENT32 : Nat := 0x81A7
def GL_DEPTH_COMPONENT32F : Nat := 0x8CAC
def GL_STENCIL_INDEX8 : Nat := 0x8D48
def GL_DEPTH_STENCIL : Nat := 0x84F9
def GL_DEPTH24_STENCIL8 : Nat := 0x88F0
def GL_DEPTH32F_STENCIL8 : Nat := 0x8CAD
def GL_R3_G3_B2 : Nat := 0x2A10
def GL_RGB10_A2UI : Nat := 0x906F
def GL_R11F_G11F_B10F : Nat := 0x8C3A
def GL_RGB9_E5 : Nat := 0x8C3D
def GL_RGB565 : Nat := 0x8D62
def GL_SRGB : Nat := 0x8C40
def GL_SRGB8 : Nat := 0x8C41
def GL_SRGB_ALPHA : Nat := 0x8C42
def GL_SRGB8_ALPHA8 : Nat := 0x8C43

/-- Function `format_traits::remove_size(GLenum)` (format.hpp lines
69-182): the unsized base of an image format; unlisted enums give
GL_NONE. -/
def format_traits.remove_size (e : Nat) : Nat :=
  if e = GL_RED ∨ e = GL_R8 ∨ e = GL_R8_SNORM ∨ e = GL_R16 ∨ e = GL_R16_SNORM ∨
     e = GL_R16F ∨ e = GL_R32F then GL_RED
  else if e = GL_RED_INTEGER ∨ e = GL_R8I ∨ e = GL_R8UI ∨ e = GL_R16I ∨
     e = GL_R16UI ∨ e = GL_R32I ∨ e = GL_R32UI then GL_RED_INTEGER
  else if e = GL_RG ∨ e = GL_RG8 ∨ e = GL_RG8_SNORM ∨ e = GL_RG16 ∨
     e = GL_RG16_SNORM ∨ e = GL_RG16F ∨ e = GL_RG32F then GL_RG
  else if e = GL_RG_INTEGER ∨ e = GL_RG8I ∨ e = GL_RG8UI ∨ e = GL_RG16I ∨
     e = GL_RG16UI ∨ e = GL_RG32I ∨ e = GL_RG32UI then GL_RG_INTEGER
  else if e = GL_RGB ∨ e = GL_RGB4 ∨ e = GL_RGB5 ∨ e = GL_RGB8 ∨
     e = GL_RGB8_SNORM ∨ e = GL_RGB10 ∨ e = GL_RGB12 ∨ e = GL_RGB16 ∨
     e = GL_RGB16_SNORM ∨ e = GL_RGB16F ∨ e = GL_RGB32F then GL_RGB
  else if e = GL_RGB_INTEGER ∨ e = GL_RGB8I ∨ e = GL_RGB8UI ∨ e = GL_RGB16I ∨
     e = GL_RGB16UI ∨ e = GL_RGB32I ∨ e = GL_RGB32UI then GL_RGB_INTEGER
  else if e = GL_RGBA ∨ e = GL_RGBA2 ∨ e = GL_RGBA4 ∨ e = GL_RGBA8 ∨
     e = GL_RGBA8_SNORM ∨ e = GL_RGBA12 ∨ e = GL_RGBA16 ∨ e = GL_RGBA16_SNORM ∨
     e = GL_RGBA16F ∨ e = GL_RGBA32F then GL_RGBA
  else if e = GL_RGBA_INTEGER ∨ e = GL_RGBA8I ∨ e = GL_RGBA8UI ∨ e = GL_RGBA16I ∨
     e = GL_RGBA16UI ∨ e = GL_RGBA32I ∨ e = GL_RGBA32UI then GL_RGBA_INTEGER
  else if e = GL_DEPTH_COMPONENT ∨ e = GL_DEPTH_COMPONENT16 ∨
     e = GL_DEPTH_COMPONENT24 ∨ e = GL_DEPTH_COMPONENT32 ∨
     e = GL_DEPTH_COMPONENT32F then GL_DEPTH_COMPONENT
  else if e = GL_STENCIL ∨ e = GL_STENCIL_INDEX8 then GL_STENCIL
  else if e = GL_DEPTH_STENCIL ∨ e = GL_DEPTH24_STENCIL8 ∨
     e = GL_DEPTH32F_STENCIL8 then GL_DEPTH_STENCIL
  else if e = GL_BGR then GL_BGR
  else if e = GL_BGR_INTEGER then GL_BGR_INTEGER
  else if e = GL_BGRA then GL_BGRA
  else if e = GL_BGRA_INTEGER then GL_BGRA_INTEGER
  else if e = GL_R3_G3_B2 then GL_RGB
  else if e = GL_RGB5_A1 then GL_RGBA
  else if e = GL_RGB10_A2 then GL_RGBA
  else if e = GL_RGB10_A2UI then GL_RGBA_INTEGER
  else if e = GL_R11F_G11F_B10F then GL_RGB
  else if e = GL_RGB9_E5 then GL_RGB
  else if e = GL_RGB565 then GL_RGB
  else if e = GL_SRGB then GL_RGB
  else if e = GL_SRGB8 then GL_RGB
  else if e = GL_SRGB_ALPHA then GL_RGBA
  else if e = GL_SRGB8_ALPHA8 then GL_RGBA
  else GL_NONE

/-- Function `format_traits::underlying_datatype(GLenum)` (format.hpp
lines 184-273): the most appropriate pixel data type of a sized image
format; GL_NONE when unsized/unlisted. -/
def format_traits.underlying_datatype (e : Nat) : Nat :=
  if e = GL_R8 ∨ e = GL_R8UI ∨ e = GL_RG8 ∨ e = GL_RG8UI ∨ e = GL_RGB4 ∨
     e = GL_RGB5 ∨ e = GL_RGB8 ∨ e = GL_RGB8UI ∨ e = GL_RGBA4 ∨ e = GL_RGBA8 ∨
     e = GL_RGBA8UI ∨ e = GL_STENCIL_INDEX8 then GL_UNSIGNED_BYTE
  else if e = GL_R8_SNORM ∨ e = GL_R8I ∨ e = GL_RG8_SNORM ∨ e = GL_RG8I ∨
     e = GL_RGB8_SNORM ∨ e = GL_RGB8I ∨ e = GL_RGBA8_SNORM ∨ e = GL_RGBA8I then GL_BYTE
  else if e = GL_R16 ∨ e = GL_R16UI ∨ e = GL_RG16 ∨ e = GL_RG16UI ∨
     e = GL_RGB10 ∨ e = GL_RGB12 ∨ e = GL_RGB16 ∨ e = GL_RGB16UI ∨
     e = GL_RGBA12 ∨ e = GL_RGBA16 ∨ e = GL_RGBA16UI ∨
     e = GL_DEPTH_COMPONENT16 then GL_UNSIGNED_SHORT
  else if e = GL_R16_SNORM ∨ e = GL_R16I ∨ e = GL_RG16_SNORM ∨ e = GL_RG16I ∨
     e = GL_RGB16_SNORM ∨ e = GL_RGB16I ∨ e = GL_RGBA16_SNORM ∨
     e = GL_RGBA16I then GL_SHORT
  else if e = GL_R32UI ∨ e = GL_RG32UI ∨ e = GL_RGB32UI ∨ e = GL_RGBA32UI ∨
     e = GL_DEPTH_COMPONENT24 ∨ e = GL_DEPTH_COMPONENT32 then GL_UNSIGNED_INT
  else if e = GL_R32I ∨ e = GL_RG32I ∨ e = GL_RGB32I ∨ e = GL_RGBA32I then GL_INT
  else if e = GL_R16F ∨ e = GL_RG16F ∨ e = GL_RGB16F ∨ e = GL_RGBA16F then GL_HALF_FLOAT
  else if e = GL_R32F ∨ e = GL_RG32F ∨ e = GL_RGB32F ∨ e = GL_RGBA32F ∨
     e = GL_DEPTH_COMPONENT32F then GL_FLOAT
  else if e = GL_R3_G3_B2 then GL_UNSIGNED_BYTE_3_3_2
  else if e = GL_RGB5_A1 then GL_UNSIGNED_SHORT_5_5_5_1
  else if e = GL_RGB10_A2 then GL_UNSIGNED_INT_10_10_10_2
  else if e = GL_RGB10_A2UI then GL_UNSIGNED_INT_10_10_10_2
  else if e = GL_R11F_G11F_B10F then GL_UNSIGNED_INT_10F_11F_11F_REV
  else if e = GL_RGB9_E5 then GL_UNSIGNED_INT_5_9_9_9_REV
  else if e = GL_RGB565 then GL_UNSIGNED_SHORT_5_6_5
  else if e = GL_SRGB8 then GL_UNSIGNED_BYTE
  else if e = GL_SRGB8_ALPHA8 then GL_UNSIGNED_BYTE
  else if e = GL_DEPTH24_STENCIL8 then GL_UNSIGNED_INT_24_8
  else if e = GL_DEPTH32F_STENCIL8 then GL_FLOAT_32_UNSIGNED_INT_24_8_REV
  else GL_NONE

/-- Function `format_traits::is_sized(GLenum)` (format.hpp lines 65-67). -/
def format_traits.is_sized (e : Nat) : Bool :=
  format_traits.underlying_datatype e ≠ GL_NONE

/-- Function `format_traits::extent(GLenum)` (format.hpp lines 275-301):
channel count of an image format, after reducing to the unsized form. -/
def format_traits.extent (e : Nat) : Nat :=
  let e := format_traits.remove_size e
  if e = GL_RED ∨ e = GL_RED_INTEGER ∨ e = GL_DEPTH_COMPONENT ∨ e = GL_STENCIL then 1
  else if e = GL_RG ∨ e = GL_RG_INTEGER ∨ e = GL_DEPTH_STENCIL then 2
  else if e = GL_RGB ∨ e = GL_RGB_INTEGER then 3
  else if e = GL_RGBA ∨ e = GL_RGBA_INTEGER then 4
  else 0

/-- Function `format_traits::reverse(GLenum)` (format.hpp lines
303-344): a packed data type is swapped for its _REV counterpart first;
otherwise the RGB/BGR family of the unsized format is swapped; the pair
(GL_NONE, GL_NONE) signals an irreversible format. -/
def format_traits.reverse (e : Nat) : Nat × Nat :=
  let f := format_traits.remove_size e
  let t := format_traits.underlying_datatype e
  let datatype :=
    if t = GL_UNSIGNED_BYTE_3_3_2 then GL_UNSIGNED_BYTE_2_3_3_REV
    else if t = GL_UNSIGNED_SHORT_5_6_5 then GL_UNSIGNED_SHORT_5_6_5_REV
    else if t = GL_UNSIGNED_SHORT_4_4_4_4 then GL_UNSIGNED_SHORT_4_4_4_4_REV
    else if t = GL_UNSIGNED_SHORT_5_5_5_1 then GL_UNSIGNED_SHORT_1_5_5_5_REV
    else if t = GL_UNSIGNED_INT_8_8_8_8 then GL_UNSIGNED_INT_8_8_8_8_REV
    else if t = GL_UNSIGNED_INT_10_10_10_2 then GL_UNSIGNED_INT_2_10_10_10_REV
    else if t = GL_UNSIGNED_BYTE_2_3_3_REV then GL_UNSIGNED_BYTE_3_3_2
    else if t = GL_UNSIGNED_SHORT_5_6_5_REV then GL_UNSIGNED_SHORT_5_6_5
    else if t = GL_UNSIGNED_SHORT_4_4_4_4_REV then GL_UNSIGNED_SHORT_4_4_4_4
    else if t = GL_UNSIGNED_SHORT_1_5_5_5_REV then GL_UNSIGNED_SHORT_5_5_5_1
    else if t = GL_UNSIGNED_INT_8_8_8_8_REV then GL_UNSIGNED_INT_8_8_8_8
    else if t = GL_UNSIGNED_INT_2_10_10_10_REV then GL_UNSIGNED_INT_10_10_10_2
    else GL_NONE
  if datatype ≠ GL_NONE then (f, datatype)
  else
    let format :=
      if f = GL_RGB then GL_BGR
      else if f = GL_RGB_INTEGER then GL_BGR_INTEGER
      else if f = GL_RGBA then GL_BGRA
      else if f = GL_RGBA_INTEGER then GL_BGRA_INTEGER
      else if f = GL_BGR then GL_RGB
      else if f = GL_BGR_INTEGER then GL_RGB_INTEGER
      else if f = GL_BGRA then GL_RGBA
      else if f = GL_BGRA_INTEGER then GL_RGBA_INTEGER
      else GL_NONE
    if format ≠ GL_NONE then (format, t) else (GL_NONE, GL_NONE)

/-! Pixel format: include/heatsink/gl/pixel_format.hpp and
src/heatsink/gl_pixel_format.cpp. -/

/-- State of a `pixel_format` (pixel_format.hpp lines 59-63). -/
structure pixel_format where
  m_format : Nat
  m_datatype : Nat
deriving DecidableEq, Repr

/-- Private constructor `pixel_format::pixel_format(GLenum format, GLenum
type, bool reverse)` (gl_pixel_format.cpp lines 39-49): the stored format
is `remove_size(format)` and the data type is taken as-is; when reversing
is requested, `format_traits::reverse` replaces the format, and a first
component of GL_NONE is the reported "could not reverse image format."
error raised by `validate_reverse` (gl_pixel_format.cpp lines 13-22). -/
def pixel_format.construct (format ty : Nat) (reverse : Bool) :
    Except String pixel_format :=
  let base : pixel_format :=
    { m_format := format_traits.remove_size format, m_datatype := ty }
  if reverse then
    let ft := format_traits.reverse format
    if ft.1 = GL_NONE then .error "could not reverse image format."
    else .ok { base with m_format := ft.1 }
  else .ok base

/-- The `switch (component_count)` of `pixel_format::from_type`
(pixel_format.hpp lines 79-86) as written: none of its cases has a
`break`, so C++ control falls through every later case and each matched
count in 0..4 ends with the last assignment, `format = GL_RGBA`; a count
outside the cases leaves the initial GL_NONE. -/
def pixel_format.from_type_format (component_count : Nat) : Nat :=
  match component_count with
  | 0 => GL_RGBA
  | 1 => GL_RGBA
  | 2 => GL_RGBA
  | 3 => GL_RGBA
  | 4 => GL_RGBA
  | _ => GL_NONE

/-- Factory `pixel_format::from_type<T>(bool reverse)` (pixel_format.hpp
lines 68-89): the decayed tensor type must have rank at most 1 and a GL
scalar analogue (static_asserts, modelled as `none`); the channel count
(the identifier `component_count` is used but never declared in the
source, read here as the extent of the decayed type, 0 for a scalar)
selects the format through the fall-through switch, and the private
constructor receives it with the scalar data type. -/
def pixel_format.from_type (t : tensor_type) (reverse : Bool) :
    Option (Except String pixel_format) :=
  if t.dims.length > 1 then none
  else if t.scalar = GL_NONE then none
  else
    some (pixel_format.construct (pixel_format.from_type_format (t.dims.getD 0 0))
      t.scalar reverse)

/-- Method `pixel_format::get_size()` (gl_pixel_format.cpp lines 59-65):
the data type size for packed types, otherwise the data type size times
the channel extent of the format. The internal `assert(datasize != 0)`
is a sanity check noted as a comment. -/
def pixel_format.get_size (p : pixel_format) : Nat :=
  let datasize := size_of p.m_datatype
  -- assert(datasize != 0)
  if is_packed p.m_datatype then datasize
  else datasize * format_traits.extent p.m_format

/-! Shader traits: include/heatsink/traits/shader.hpp. The source name
`is_opaque` is renamed `is_opaque_type` here. -/

/-- Function `shader_traits::is_opaque(GLenum)` (shader.hpp lines
49-100): the sampler-like uniform types set through an integer handle. -/
def shader_traits.is_opaque_type (e : Nat) : Bool :=
  e = GL_SAMPLER ∨ e = GL_SAMPLER_1D ∨ e = GL_SAMPLER_1D_ARRAY ∨
  e = GL_SAMPLER_1D_SHADOW ∨ e = GL_SAMPLER_1D_ARRAY_SHADOW ∨
  e = GL_SAMPLER_2D ∨ e = GL_SAMPLER_2D_ARRAY ∨ e = GL_SAMPLER_2D_SHADOW ∨
  e = GL_SAMPLER_2D_ARRAY_SHADOW ∨ e = GL_SAMPLER_2D_MULTISAMPLE ∨
  e = GL_SAMPLER_2D_MULTISAMPLE_ARRAY ∨ e = GL_SAMPLER_2D_RECT ∨
  e = GL_SAMPLER_2D_RECT_SHADOW ∨ e = GL_SAMPLER_3D ∨ e = GL_SAMPLER_CUBE ∨
  e = GL_SAMPLER_CUBE_MAP_ARRAY ∨ e = GL_SAMPLER_CUBE_SHADOW ∨
  e = GL_SAMPLER_CUBE_MAP_ARRAY_SHADOW ∨ e = GL_SAMPLER_BUFFER ∨
  e = GL_INT_SAMPLER_1D ∨ e = GL_INT_SAMPLER_1D_ARRAY ∨
  e = GL_INT_SAMPLER_2D ∨ e = GL_INT_SAMPLER_2D_ARRAY ∨
  e = GL_INT_SAMPLER_2D_MULTISAMPLE ∨ e = GL_INT_SAMPLER_2D_MULTISAMPLE_ARRAY ∨
  e = GL_INT_SAMPLER_2D_RECT ∨ e = GL_INT_SAMPLER_3D ∨ e = GL_INT_SAMPLER_CUBE ∨
  e = GL_INT_SAMPLER_CUBE_MAP_ARRAY ∨ e = GL_INT_SAMPLER_BUFFER ∨
  e = GL_UNSIGNED_INT_SAMPLER_1D ∨ e = GL_UNSIGNED_INT_SAMPLER_1D_ARRAY ∨
  e = GL_UNSIGNED_INT_SAMPLER_2D ∨ e = GL_UNSIGNED_INT_SAMPLER_2D_ARRAY ∨
  e = GL_UNSIGNED_INT_SAMPLER_2D_MULTISAMPLE ∨
  e = GL_UNSIGNED_INT_SAMPLER_2D_MULTISAMPLE_ARRAY ∨
  e = GL_UNSIGNED_INT_SAMPLER_2D_RECT ∨ e = GL_UNSIGNED_INT_SAMPLER_3D ∨
  e = GL_UNSIGNED_INT_SAMPLER_CUBE ∨ e = GL_UNSIGNED_INT_SAMPLER_CUBE_MAP_ARRAY ∨
  e = GL_UNSIGNED_INT_SAMPLER_BUFFER

/-- Function `shader_traits::is_assignable(GLenum dest, GLenum src)`
(shader.hpp lines 102-148): exact match; a plain GL_INT into any opaque
type; or, for each GL_BOOL vector rank, the same-rank int, unsigned, or
float vector. -/
def shader_traits.is_assignable (dest src : Nat) : Bool :=
  if dest = src then true
  else if shader_traits.is_opaque_type dest && src = GL_INT then true
  else if dest = GL_BOOL then
    src = GL_INT ∨ src = GL_UNSIGNED_INT ∨ src = GL_FLOAT
  else if dest = GL_BOOL_VEC2 then
    src = GL_INT_VEC2 ∨ src = GL_UNSIGNED_INT_VEC2 ∨ src = GL_FLOAT_VEC2
  else if dest = GL_BOOL_VEC3 then
    src = GL_INT_VEC3 ∨ src = GL_UNSIGNED_INT_VEC3 ∨ src = GL_FLOAT_VEC3
  else if dest = GL_BOOL_VEC4 then
    src = GL_INT_VEC4 ∨ src = GL_UNSIGNED_INT_VEC4 ∨ src = GL_FLOAT_VEC4
  else false

/-- The claim's reading of assignability, written from the specification
sentence (spec section 4.5): exact match, or a same-rank int/uint/float
source for a bool-typed uniform, or a plain integer source for any
opaque uniform type. Stated to be compared with the source-translated
`shader_traits.is_assignable`. -/
def assignable_per_spec (dest src : Nat) : Prop :=
  dest = src ∨
  (shader_traits.is_opaque_type dest = true ∧ src = GL_INT) ∨
  (dest = GL_BOOL ∧ (src = GL_INT ∨ src = GL_UNSIGNED_INT ∨ src = GL_FLOAT)) ∨
  (dest = GL_BOOL_VEC2 ∧
    (src = GL_INT_VEC2 ∨ src = GL_UNSIGNED_INT_VEC2 ∨ src = GL_FLOAT_VEC2)) ∨
  (dest = GL_BOOL_VEC3 ∧
    (src = GL_INT_VEC3 ∨ src = GL_UNSIGNED_INT_VEC3 ∨ src = GL_FLOAT_VEC3)) ∨
  (dest = GL_BOOL_VEC4 ∧
    (src = GL_INT_VEC4 ∨ src = GL_UNSIGNED_INT_VEC4 ∨ src = GL_FLOAT_VEC4))

/-! Uniforms: include/heatsink/gl/uniform.hpp and
src/heatsink/gl_uniform.cpp. -/

/-- State of a `uniform` (uniform.hpp lines 136-156) restricted to the
fields the update checks read: the introspected type enumeration and the
array size. -/
structure uniform where
  m_datatype : Nat
  m_size : Nat
deriving DecidableEq, Repr

/-- Template `uniform::update(const T&)` (uniform.hpp lines 201-216):
`datatype` is the compile-time deduced GL enum of the source value
(nonzero by static_assert); assignability failure is a reported "type
mismatch." exception, and otherwise the value is forwarded to the
glUniform dispatch. -/
def uniform.update_value (u : uniform) (src : Nat) : Except String Unit :=
  if !(shader_traits.is_assignable u.m_datatype src) then
    .error "type mismatch."
  else .ok ()

/-- Template `uniform::update(Iterator, Iterator)` (uniform.hpp lines
218-242): an iterator distance different from `m_size` is the reported
"array size mismatch." exception, then assignability is checked exactly
as in the single-value overload. -/
def uniform.update_range (u : uniform) (src len : Nat) : Except String Unit :=
  if len ≠ u.m_size then .error "array size mismatch."
  else if !(shader_traits.is_assignable u.m_datatype src) then
    .error "type mismatch."
  else .ok ()

/-- Helper `get_parameters(GLuint, const std::vector<GLuint>& indices,
GLenum e)` (gl_uniform.cpp lines 9-14): `glGetActiveUniformsiv` writes,
for each position k, the parameter `e` of the uniform whose index is
`indices[k]`. The driver's answer is the oracle function
(index, parameter enum) to value. -/
def get_parameters (oracle : Nat → Nat → Int) (indices : List Nat) (e : Nat) :
    List Int :=
  indices.map fun i => oracle i e

/-- The introspection record of one uniform as `uniform::from_program`
assembles it: (type, size, block index, name length). -/
structure uniform_query where
  ty : Int
  size : Int
  block : Int
  namelen : Int
deriving DecidableEq, Repr

/-- Factory `uniform::from_program(const program&)` (gl_uniform.cpp lines
25-52), up to the per-uniform values it reads: `indices` is constructed
as `std::vector<GLuint> indices(count)` - `count` zero-initialized
entries - and the four `get_parameters` calls are made with that vector
BEFORE `std::iota` fills it with 0,1,2,...; the loop then reads entry i
of each result for the uniform at introspection index i. -/
def uniform.from_program_queries (oracle : Nat → Nat → Int) (count : Nat) :
    List uniform_query :=
  let indices := List.replicate count 0
  let types := get_parameters oracle indices GL_UNIFORM_TYPE
  let sizes := get_parameters oracle indices GL_UNIFORM_SIZE
  let blocks := get_parameters oracle indices GL_UNIFORM_BLOCK_INDEX
  let lengths := get_parameters oracle indices GL_UNIFORM_NAME_LENGTH
  (List.range count).map fun i =>
    { ty := types.getD i 0, size := sizes.getD i 0,
      block := blocks.getD i 0, namelen := lengths.getD i 0 }

/-! Texture traits: include/heatsink/traits/texture.hpp. -/

/-- Function `texture_traits::is_multisample(GLenum)` (texture.hpp
traits lines 51-59). -/
def texture_traits.is_multisample (e : Nat) : Bool :=
  e = GL_TEXTURE_2D_MULTISAMPLE ∨ e = GL_TEXTURE_2D_MULTISAMPLE_ARRAY

/-- Function `texture_traits::is_array(GLenum)` (traits/texture.hpp
lines 61-71). -/
def texture_traits.is_array (e : Nat) : Bool :=
  e = GL_TEXTURE_1D_ARRAY ∨ e = GL_TEXTURE_2D_ARRAY ∨
  e = GL_TEXTURE_2D_MULTISAMPLE_ARRAY ∨ e = GL_TEXTURE_CUBE_MAP_ARRAY

/-- Function `texture_traits::is_cubemap(GLenum)` (traits/texture.hpp
lines 73-81). -/
def texture_traits.is_cubemap (e : Nat) : Bool :=
  e = GL_TEXTURE_CUBE_MAP ∨ e = GL_TEXTURE_CUBE_MAP_ARRAY

/-- Function `texture_traits::rank(GLenum)` (traits/texture.hpp lines
83-104). -/
def texture_traits.rank (e : Nat) : Nat :=
  if e = GL_TEXTURE_1D ∨ e = GL_TEXTURE_BUFFER then 1
  else if e = GL_TEXTURE_1D_ARRAY ∨ e = GL_TEXTURE_2D ∨
     e = GL_TEXTURE_2D_MULTISAMPLE ∨ e = GL_TEXTURE_RECTANGLE then 2
  else if e = GL_TEXTURE_2D_ARRAY ∨ e = GL_TEXTURE_2D_MULTISAMPLE_ARRAY ∨
     e = GL_TEXTURE_3D ∨ e = GL_TEXTURE_CUBE_MAP ∨
     e = GL_TEXTURE_CUBE_MAP_ARRAY then 3
  else 0

/-! Texture subsystem: include/heatsink/gl/texture.hpp and
src/heatsink/gl_texture.cpp. -/

/-- A three-component unsigned extent vector, the stored `glm::uvec3`
form of `texture::extents` (texture.hpp line 211: unused components are
always 1). -/
structure uvec3 where
  x : Nat
  y : Nat
  z : Nat
deriving DecidableEq, Repr

/-- State of a `texture` (texture.hpp lines 205-216) together with its
`object<GL_TEXTURE>` base; the bind target lives in the object state. -/
structure texture where
  obj : object
  m_immutable : Bool
  m_base : uvec3
  m_extents : uvec3
  m_format : Nat
  m_levels : Nat
deriving DecidableEq, Repr

/-- Modelled from the spec: the body of `size_of(texture::extents,
pixel_format)` is declared at texture.hpp line 386 but is not among the
repository files. Spec section 4.4 defines the expected byte size of
supplied pixel data as the size for the given extents and pixel format -
"component count x datatype size, accounting for packed encodings" - per
texel, which is `pixel_format::get_size`, times the extent volume. -/
def texture.size_of_extents (es : uvec3) (p : pixel_format) : Nat :=
  es.x * es.y * es.z * p.get_size

/-- Modelled from the spec: `texture::is_empty` is declared at
texture.hpp lines 171-176 ("its size is zero across all dimensions") but
its body is not among the repository files. -/
def texture.is_empty (t : texture) : Bool :=
  t.m_extents.x = 0 ∧ t.m_extents.y = 0 ∧ t.m_extents.z = 0

/-- Template `texture::update(std::size_t mip, Iterator, Iterator,
pixel_format)` (texture.hpp lines 459-510): in source order, a mip index
at or past `m_levels` is the reported "mipmap level out of bounds."
exception; a data byte length different from the expected size for
`this->get_extents(mip)` is the reported "data size mismatch." exception
(the implementation of `get_extents` is not among the repository files,
so the extents value it returns for `mip` is the parameter `es`); a
multisample target is the reported "cannot update multisample texture
directly." exception; a cubemap target whose layer extent `m_extents.z`
is not 1 is the reported "cannot update multiple cubemap faces
simultaneously." exception; an empty texture returns without uploading;
otherwise the glTexSubImage upload runs. The result records whether an
upload was issued. -/
def texture.update (t : texture) (mip : Nat) (data_size : Nat) (es : uvec3)
    (fmt : pixel_format) : Except String Bool :=
  if mip ≥ t.m_levels then .error "mipmap level out of bounds."
  else if data_size ≠ texture.size_of_extents es fmt then
    .error "data size mismatch."
  else if texture_traits.is_multisample t.obj.m_target then
    .error "cannot update multisample texture directly."
  else if texture_traits.is_cubemap t.obj.m_target && t.m_extents.z ≠ 1 then
    .error "cannot update multiple cubemap faces simultaneously."
  else if t.is_empty then .ok false
  else .ok true

/-! Concrete fixtures used by witnesses and counterexamples. -/

/-- A concrete valid root buffer of 10 bytes used by witnesses. -/
def buffer_ten : buffer :=
  { obj := { m_name := 1, m_target := GL_ARRAY_BUFFER },
    m_immutable := false, m_base := 0, m_size := 10 }

/-- A concrete moved-to object state used by the C2 witness. -/
def object_seven : object :=
  { m_name := 7, m_target := GL_ARRAY_BUFFER }

/-- A single-face (layer extent 1) view state of a cubemap texture. -/
def cubemap_face : texture :=
  { obj := { m_name := 3, m_target := GL_TEXTURE_CUBE_MAP },
    m_immutable := true, m_base := { x := 0, y := 0, z := 2 },
    m_extents := { x := 4, y := 4, z := 1 }, m_format := GL_RGBA8, m_levels := 1 }

/-- A multisample 2D texture state. -/
def multisample_tex : texture :=
  { obj := { m_name := 4, m_target := GL_TEXTURE_2D_MULTISAMPLE },
    m_immutable := true, m_base := { x := 0, y := 0, z := 0 },
    m_extents := { x := 4, y := 4, z := 1 }, m_format := GL_RGBA8, m_levels := 1 }

/-- An RGB float pixel format (the value the spec expects from
`from_type` on a 3-component float tensor). -/
def rgb_float : pixel_format :=
  { m_format := GL_RGB, m_datatype := GL_FLOAT }

/-- A driver oracle whose parameter value for uniform index i is i, for
every parameter enum; it distinguishes index 0 from every other index. -/
def oracle_identity : Nat → Nat → Int :=
  fun i _ => (i : Int)

/-! Theorems. Each claim C1..C10 of the specification review is settled
below; helper lemmas carry no claim. -/

/-- C1, amended: on a valid root buffer, make_view(offset, size) with
offset + size at most the buffer size succeeds and the view reports
get_size() == size and get_offset() == offset; when offset + size
exceeds the buffer size and the std::size_t sum does not wrap (it is
below 2^64), make_view raises the reported out-of-bounds error and never
clamps. -/
theorem make_view_in_bounds (b : buffer) (offset size : Nat)
    (hv : b.is_valid = true) (hroot : b.m_base = 0)
    (hsum : offset + size < size_t_mod) :
    (offset + size ≤ b.m_size →
      ∃ v, buffer.make_view b offset size = .ok v ∧
        v.get_size = size ∧ v.get_offset = offset) ∧
    (b.m_size < offset + size →
      buffer.make_view b offset size =
        .error (.reported "buffer view range out of bounds.")) := by
  have hmod : (offset + size) % size_t_mod = offset + size := Nat.mod_eq_of_lt hsum
  constructor
  · intro hle
    have hoff : offset < size_t_mod :=
      lt_of_le_of_lt (Nat.le_add_right offset size) hsum
    refine ⟨{ obj := b.obj, m_immutable := b.m_immutable,
              m_base := (b.m_base + offset) % size_t_mod, m_size := size },
            ?_, rfl, ?_⟩
    · simp [buffer.make_view, hv, hmod, Nat.not_lt.mpr hle]
    · simp [buffer.get_offset, buffer.get_base, hroot, Nat.mod_eq_of_lt hoff]
  · intro hgt
    simp [buffer.make_view, hv, hmod, hgt]

/-- C1 witness: the amended theorem applied to a 10-byte root buffer at
(4, 6) in bounds and (4, 7) out of bounds. -/
theorem make_view_in_bounds_witness :
    (∃ v, buffer.make_view buffer_ten 4 6 = .ok v ∧
      v.get_size = 6 ∧ v.get_offset = 4) ∧
    buffer.make_view buffer_ten 4 7 =
      .error (.reported "buffer view range out of bounds.") :=
  ⟨(make_view_in_bounds buffer_ten 4 6 (by decide) rfl (by decide)).1 (by decide),
   (make_view_in_bounds buffer_ten 4 7 (by decide) rfl (by decide)).2 (by decide)⟩

/-- C1 counterexample: on a 10-byte root buffer, offset 2^64 - 1 with
size 2 has offset + size greater than the buffer size, yet make_view
succeeds, because the std::size_t bounds check wraps the sum to 1. -/
theorem make_view_overflow_accepted :
    (2 ^ 64 - 1) + 2 > buffer_ten.m_size ∧
    buffer.make_view buffer_ten (2 ^ 64 - 1) 2 =
      .ok { obj := { m_name := 1, m_target := GL_ARRAY_BUFFER },
            m_immutable := false, m_base := 2 ^ 64 - 1, m_size := 2 } := by
  constructor
  · decide
  · rfl

/-- C2: for a kind whose traits declare no default (zero) instance, a
successfully constructed object has a nonzero name and is_valid() true;
the source of a move is left with name zero, is_valid() false, and its
destruction calls no destroy primitive. -/
theorem object_fresh_and_moved (V mode raw : Nat) (s : object)
    (hdef : name_traits.is_default_constructible V = false)
    (hok : object.construct mode raw = .ok s) :
    s.m_name ≠ 0 ∧ object.is_valid V s = true ∧
    object.is_valid V (object.move_construct s).2 = false ∧
    object.destroy_calls (object.move_construct s).2 = [] := by
  have hraw : ¬ raw = 0 := by
    intro h
    simp [object.construct, name_traits.create, h] at hok
  have hs : s = { m_name := raw, m_target := mode } := by
    simp [object.construct, name_traits.create, hraw] at hok
    exact hok.symm
  subst hs
  refine ⟨hraw, ?_, ?_, ?_⟩
  · simp [object.is_valid, hraw]
  · simp [object.move_construct, object.reset, object.is_valid, hdef]
  · simp [object.move_construct, object.reset, object.destroy_calls]

/-- C2 witness: a buffer-kind object (no default instance) constructed
from driver name 7. -/
theorem object_fresh_and_moved_witness :
    object_seven.m_name ≠ 0 ∧ object.is_valid GL_BUFFER object_seven = true ∧
    object.is_valid GL_BUFFER (object.move_construct object_seven).2 = false ∧
    object.destroy_calls (object.move_construct object_seven).2 = [] :=
  object_fresh_and_moved GL_BUFFER GL_ARRAY_BUFFER 7 object_seven (by decide) rfl

/-- C3: destroying a buffer view or a texture view resets the aliased
name to zero before the base object destructor runs, so the whole
destruction sequence invokes the destroy primitive on no name at all. -/
theorem view_destructor_no_destroy (s : object) :
    buffer.view_destroy_calls s = [] ∧ texture.view_destroy_calls s = [] := by
  constructor <;>
    simp [buffer.view_destroy_calls, texture.view_destroy_calls,
      object.destroy_calls, object.reset]

/-- C9, amended: creating an immutable buffer with size zero fails, but
in the size overload the failure is a thrown (reported, recoverable)
exception rather than an assertion; only the iterator-range overload
checks its computed size with an assert (contract tier). A nonzero size
with a valid driver name succeeds. -/
theorem immutable_zero_size (target raw count sizeof_T : Nat) :
    buffer.immutable target 0 raw =
      .error (.reported "cannot create immutable buffer with no data.") ∧
    (count * sizeof_T % size_t_mod = 0 →
      buffer.immutable_range target count sizeof_T raw =
        .error (.contract "assert size > 0")) ∧
    (∀ size, size ≠ 0 → raw ≠ 0 →
      buffer.immutable target size raw =
        .ok { obj := { m_name := raw, m_target := target },
              m_immutable := true, m_base := 0, m_size := size }) := by
  refine ⟨by simp [buffer.immutable], ?_, ?_⟩
  · intro h
    simp [buffer.immutable_range, h]
  · intro size hs hr
    simp [buffer.immutable, hs, name_traits.create, hr]

/-- C9 counterexample: the zero-size immutable failure is the reported
exception constructor, not the contract (assertion) constructor the
claim places it in. -/
theorem immutable_zero_not_assertion :
    buffer.immutable GL_ARRAY_BUFFER 0 5 =
      .error (.reported "cannot create immutable buffer with no data.") ∧
    buffer.immutable GL_ARRAY_BUFFER 0 5 ≠
      .error (.contract "cannot create immutable buffer with no data.") := by
  constructor
  · rfl
  · intro h
    simp [buffer.immutable] at h

/-- C4: the struct-member-pointer vertex_format constructor applied to a
double-precision 3-component member never reports an index count of 2:
it yields extents (3, 1) when the member is read as a vector
(force_array false) and (1, 3) under the default force_array, and a
4-component double member yields (4, 1); the GL_DOUBLE slot doubling
that produces index count 2 happens only in the validating
(GLenum, extents, packing) constructor, which this path bypasses. -/
theorem vertex_format_member_double_slots :
    (vertex_format.from_member { scalar := GL_DOUBLE, dims := [3] } 24 0 false).map
      vertex_format.m_extents = some (3, 1) ∧
    (vertex_format.from_member { scalar := GL_DOUBLE, dims := [3] } 24 0 true).map
      vertex_format.m_extents = some (1, 3) ∧
    (vertex_format.from_member { scalar := GL_DOUBLE, dims := [4] } 32 0 false).map
      vertex_format.m_extents = some (4, 1) ∧
    (vertex_format.construct GL_DOUBLE (3, 1) { stride := 0, offset := 0 }).map
      vertex_format.m_extents = Except.ok (3, 2) := by
  refine ⟨rfl, rfl, rfl, rfl⟩

/-- Helper for C5: along the slot loop of set_attribute, each recorded
byte offset advances by the element size times the slot's component
count, and the attribute index advances by one. -/
theorem set_attribute_loop_offset_step (ty e0 loc : Nat) :
    ∀ (n i off k l c o l2 c2 o2 : Nat),
      (set_attribute_loop ty e0 loc i off n)[k]? = some (l, c, o) →
      (set_attribute_loop ty e0 loc i off n)[k + 1]? = some (l2, c2, o2) →
      o2 = o + size_of ty * c ∧ l2 = l + 1 := by
  intro n
  induction n with
  | zero =>
    intro i off k l c o l2 c2 o2 h1 _
    simp [set_attribute_loop] at h1
  | succ m ih =>
    intro i off k l c o l2 c2 o2 h1 h2
    cases k with
    | zero =>
      simp only [set_attribute_loop] at h1 h2
      simp at h1
      obtain ⟨rfl, rfl, rfl⟩ := h1
      cases m with
      | zero => simp [set_attribute_loop] at h2
      | succ m2 =>
        simp only [set_attribute_loop] at h2
        simp at h2
        obtain ⟨rfl, rfl, rfl⟩ := h2
        exact ⟨rfl, by omega⟩
    | succ k2 =>
      simp only [set_attribute_loop] at h1 h2
      simp at h1 h2
      exact ih (i + 1) (off + size_of ty * slot_components ty e0 i) k2
        l c o l2 c2 o2 h1 h2

/-- C5: set_attribute iterates once per index extent, advancing the byte
offset by element-size times the slot component count; GL_DOUBLE data
with component extent 3 splits as 2 then 1 across its two slots, and
with component extent 4 as 2 and 2. -/
theorem set_attribute_slot_iteration (loc voff poff stride : Nat) :
    set_attribute_calls { m_location := loc, m_datatype := GL_NONE, m_size := 0 }
      { m_datatype := GL_DOUBLE, m_extents := (3, 2),
        m_packing := { stride := stride, offset := poff } } voff =
      .ok [(loc, 2, voff + poff), (loc + 1, 1, voff + poff + 16)] ∧
    set_attribute_calls { m_location := loc, m_datatype := GL_NONE, m_size := 0 }
      { m_datatype := GL_DOUBLE, m_extents := (4, 2),
        m_packing := { stride := stride, offset := poff } } voff =
      .ok [(loc, 2, voff + poff), (loc + 1, 2, voff + poff + 16)] ∧
    (∀ (a : gl_attribute) (f : vertex_format) (voff2 : Nat)
        (calls : List (Nat × Nat × Nat)) (k l c o l2 c2 o2 : Nat),
      set_attribute_calls a f voff2 = .ok calls →
      calls[k]? = some (l, c, o) →
      calls[k + 1]? = some (l2, c2, o2) →
      o2 = o + size_of f.m_datatype * c ∧ l2 = l + 1) := by
  refine ⟨?_, ?_, ?_⟩
  · simp [set_attribute_calls, gl_attribute.is_annotated, gl_attribute.get,
      set_attribute_loop, slot_components, size_of, GL_NONE, GL_DOUBLE,
      GL_BOOL, GL_BYTE, GL_SHORT, GL_INT, GL_UNSIGNED_BYTE, GL_UNSIGNED_SHORT,
      GL_UNSIGNED_INT, GL_FLOAT]
  · simp [set_attribute_calls, gl_attribute.is_annotated, gl_attribute.get,
      set_attribute_loop, slot_components, size_of, GL_NONE, GL_DOUBLE,
      GL_BOOL, GL_BYTE, GL_SHORT, GL_INT, GL_UNSIGNED_BYTE, GL_UNSIGNED_SHORT,
      GL_UNSIGNED_INT, GL_FLOAT]
  · intro a f voff2 calls k l c o l2 c2 o2 hok h1 h2
    unfold set_attribute_calls at hok
    split at hok
    · exact absurd hok (by simp)
    · rw [Except.ok.injEq] at hok
      subst hok
      exact set_attribute_loop_offset_step f.m_datatype f.m_extents.1 a.get
        f.m_extents.2 0 (voff2 + f.m_packing.offset) k l c o l2 c2 o2 h1 h2

/-- C6: pixel_format::from_type on a 3-component float tensor yields the
format GL_RGBA (channel extent 4) with byte size 16, not the GL_RGB /
12-byte result the specification states: the switch on the component
count has no break statements, so every matched case falls through to
the GL_RGBA assignment. -/
theorem pixel_format_from_type_float3 :
    pixel_format.from_type { scalar := GL_FLOAT, dims := [3] } false =
      some (.ok { m_format := GL_RGBA, m_datatype := GL_FLOAT }) ∧
    pixel_format.get_size { m_format := GL_RGBA, m_datatype := GL_FLOAT } = 16 ∧
    format_traits.extent GL_RGBA = 4 ∧
    pixel_format.get_size rgb_float = 12 := by
  refine ⟨rfl, rfl, rfl, rfl⟩

/-- C7: uniform::update(value) raises its reported error exactly when
the deduced source type is not assignable to the uniform's introspected
type, update(range) exactly when the range length differs from the
element count or the type is not assignable, and the source's
is_assignable coincides with the claim's description of assignability
(exact match, same-rank int/uint/float into a bool-typed uniform, or a
plain GL_INT into any opaque type). -/
theorem uniform_update_assignability (u : uniform) (src len : Nat) :
    ((∃ e, uniform.update_value u src = .error e) ↔
      shader_traits.is_assignable u.m_datatype src = false) ∧
    ((∃ e, uniform.update_range u src len = .error e) ↔
      (len ≠ u.m_size ∨ shader_traits.is_assignable u.m_datatype src = false)) ∧
    (∀ dest s, shader_traits.is_assignable dest s = true ↔
      assignable_per_spec dest s) := by
  refine ⟨?_, ?_, ?_⟩
  · cases h : shader_traits.is_assignable u.m_datatype src <;>
      simp [uniform.update_value, h]
  · by_cases hlen : len = u.m_size <;>
      cases h : shader_traits.is_assignable u.m_datatype src <;>
      simp [uniform.update_range, hlen, h]
  · intro dest s
    unfold shader_traits.is_assignable assignable_per_spec
    split_ifs with h1 h2 h3 h4 h5 h6 <;>
      simp_all [GL_BOOL, GL_BOOL_VEC2, GL_BOOL_VEC3, GL_BOOL_VEC4]

/-- C8: with well-sized pixel data, texture::update raises a reported
error exactly when the mip index is at or past the level count, the
target is multisample, or the target is a cubemap whose layer (z) extent
is not 1; a single-face (z extent 1) cubemap view passes these checks. -/
theorem texture_update_error_conditions (t : texture) (mip : Nat) (es : uvec3)
    (fmt : pixel_format) (data_size : Nat)
    (hsize : data_size = texture.size_of_extents es fmt) :
    (∃ e, texture.update t mip data_size es fmt = .error e) ↔
      (t.m_levels ≤ mip ∨ texture_traits.is_multisample t.obj.m_target = true ∨
        (texture_traits.is_cubemap t.obj.m_target = true ∧ t.m_extents.z ≠ 1)) := by
  subst hsize
  unfold texture.update
  split_ifs with h1 h2 h3 h4 h5 <;> simp_all

/-- C8 witness: a single-face cubemap view is updatable while a
multisample texture update errors, both at mip 0 with matching 192-byte
data. -/
theorem texture_update_error_conditions_witness :
    ¬ (∃ e, texture.update cubemap_face 0 192 { x := 4, y := 4, z := 1 }
        rgb_float = .error e) ∧
    (∃ e, texture.update multisample_tex 0 192 { x := 4, y := 4, z := 1 }
        rgb_float = .error e) := by
  constructor
  · intro h
    have hc := (texture_update_error_conditions cubemap_face 0
      { x := 4, y := 4, z := 1 } rgb_float 192 (by decide)).mp h
    exact absurd hc (by decide)
  · exact (texture_update_error_conditions multisample_tex 0
      { x := 4, y := 4, z := 1 } rgb_float 192 (by decide)).mpr
      (Or.inr (Or.inl (by decide)))

/-- C10: uniform::from_program queries the per-uniform parameters with
the index vector before iota fills it, i.e. with every index 0, so the
record assembled for introspection index i holds the driver's values for
index 0 in all four parameters. -/
theorem from_program_queries_use_index_zero (oracle : Nat → Nat → Int)
    (count i : Nat) (h : i < count) :
    (uniform.from_program_queries oracle count).get? i =
      some { ty := oracle 0 GL_UNIFORM_TYPE, size := oracle 0 GL_UNIFORM_SIZE,
             block := oracle 0 GL_UNIFORM_BLOCK_INDEX,
             namelen := oracle 0 GL_UNIFORM_NAME_LENGTH } := by
  unfold uniform.from_program_queries get_parameters
  simp [List.map_replicate, List.get?_eq_getElem?, List.getElem?_map,
    List.getElem?_range, h, List.getD, List.getElem?_replicate]

/-- C10 witness: with the oracle whose value for index i is i and two
active uniforms, the record at introspection index 1 holds the index-0
values (all zero). -/
theorem from_program_queries_use_index_zero_witness :
    (uniform.from_program_queries oracle_identity 2).get? 1 =
      some { ty := 0, size := 0, block := 0, namelen := 0 } :=
  from_program_queries_use_index_zero oracle_identity 2 1 (by decide)

end heatsink.gl
